import Mathlib

/-!
Verification development for the SlenderNodes OAI-PMH / DataONE GMN adapter
(src/oaipmh/d1_adapter_pangaea.py, src/oaipmh/d1_client_manager.py).

The adapter script harvests records from an OAI-PMH provider in pages and
reconciles them against a DataONE Generic Member Node (GMN).  The pure logic
of the two Python source files is embedded below: the identifier stripping
performed with str.replace, the datestamp parsing, the version-pid minting of
d1_client_manager.py, the per-record decision branches of
OAIPMH_Harvester.process_record, the pagination loop of main together with
OAIPMH_Harvester.define_params, the HTTP result handling of
OAIPMH_Harvester.get_records, and the run-summary line of main.

The adapter imports a collaborator module d1_client_manager_pangaea that is
not part of this source tree; where its behaviour is needed it is modelled
from the specification (see the doc comments marked "Modelled from the
spec:").  Everything else is translated directly from the Python sources.
-/

/-- The literal string "oai:pangaea.de:" passed to str.replace in
process_record (d1_adapter_pangaea.py lines 188-189 and 202-203),
as an explicit list of characters. -/
def pangaeaPat : List Char :=
  'o' :: 'a' :: 'i' :: ':' :: 'p' :: 'a' :: 'n' :: 'g' :: 'a' :: 'e' :: 'a' :: '.' :: 'd' :: 'e' :: ':'::[]

/-- Fuel-indexed scanner implementing Python str.replace(pat, ""): scan left
to right; whenever the pattern starts at the current position, drop it and
continue scanning after it; otherwise keep the character.  The fuel argument
only makes the recursion structural; it is irrelevant once it is at least the
length of the list (theorem stripAux_fuel). -/
def stripAux : Nat → List Char → List Char
  | _, [] => []
  | 0, l => l
  | n + 1, c :: rest =>
    if pangaeaPat.isPrefixOf (c :: rest) then
      stripAux n (List.drop (pangaeaPat.length - 1) rest)
    else
      c :: stripAux n rest

/-- Python identifier.replace("oai:pangaea.de:", "") on a list of
characters. -/
def stripPangaea (l : List Char) : List Char := stripAux l.length l

/-- The wire-identifier-to-nativeId translation of process_record:
identifier = raw.replace("oai:pangaea.de:", ""). -/
def nativeIdOf (wire : String) : String := String.mk (stripPangaea wire.data)

/-- A timezone-aware datetime as used by the adapter (every datestamp is
localized to UTC with pytz.utc.localize, so the zone is implicit and equality
is componentwise). -/
structure DateTime where
  year : Nat
  month : Nat
  day : Nat
  hour : Nat
  minute : Nat
  second : Nat
  deriving DecidableEq, Repr

/-- Numeric value of a decimal digit character. -/
def dval (c : Char) : Nat := c.toNat - 48

/-- Two-digit decimal number. -/
def num2 (a b : Char) : Nat := 10 * dval a + dval b

/-- Four-digit decimal number. -/
def num4 (a b c d : Char) : Nat :=
  1000 * dval a + 100 * dval b + 10 * dval c + dval d

/-- datetime.strptime(s, "%Y-%m-%dT%H:%M:%SZ") of process_record line 207:
succeeds exactly on a 20-character string of shape YYYY-MM-DDTHH:MM:SSZ with
digits in the numeric positions and in-range fields (strptime rejects
out-of-range fields; its finer calendar checks are abstracted to these range
checks), otherwise raises, which the embedding renders as none.  The
subsequent pytz.utc.localize is the identity in this model. -/
def parseDatestamp (s : String) : Option DateTime :=
  match s.data with
  | [y1, y2, y3, y4, g1, o1, o2, g2, a1, a2, tc, h1, h2, k1, i1, i2, k2, e1, e2, zc] =>
    if (g1 == '-') && (g2 == '-') && (tc == 'T') && (k1 == ':') && (k2 == ':') && (zc == 'Z')
        && y1.isDigit && y2.isDigit && y3.isDigit && y4.isDigit
        && o1.isDigit && o2.isDigit && a1.isDigit && a2.isDigit
        && h1.isDigit && h2.isDigit && i1.isDigit && i2.isDigit
        && e1.isDigit && e2.isDigit
        && decide (1 ≤ num2 o1 o2) && decide (num2 o1 o2 ≤ 12)
        && decide (1 ≤ num2 a1 a2) && decide (num2 a1 a2 ≤ 31)
        && decide (num2 h1 h2 ≤ 23) && decide (num2 i1 i2 ≤ 59)
        && decide (num2 e1 e2 ≤ 59) then
      some ⟨num4 y1 y2 y3 y4, num2 o1 o2, num2 a1 a2, num2 h1 h2, num2 i1 i2, num2 e1 e2⟩
    else
      none
  | _ => none

/-- Zero-padded two-digit field of strftime (%m, %d, %H, %M). -/
def pad2 (n : Nat) : String := if n < 10 then "0" ++ toString n else toString n

/-- Zero-padded four-digit field of strftime (%Y). -/
def pad4 (n : Nat) : String :=
  if n < 10 then "000" ++ toString n
  else if n < 100 then "00" ++ toString n
  else if n < 1000 then "0" ++ toString n
  else toString n

/-- datetime.now().strftime("_%Y%m%d_%H%M") of
d1_client_manager._generate_version_pid (d1_client_manager.py line 31).
Note the format has minute resolution: the seconds of the instant do not
appear in the output. -/
def version_pid_suffix (t : DateTime) : String :=
  "_" ++ pad4 t.year ++ pad2 t.month ++ pad2 t.day ++ "_" ++ pad2 t.hour ++ pad2 t.minute

/-- d1_client_manager._generate_version_pid: the version pid is the native
identifier concatenated with the strftime rendering of the minting
instant. -/
def generate_version_pid (native_identifier : String) (now : DateTime) : String :=
  native_identifier ++ version_pid_suffix now

/-- Modelled from the spec: the result of check_if_identifier_exists of the
imported d1_client_manager_pangaea module (not part of this source tree).
The spec gives exists(nativeId) -> \{exists, currentVersionId, lastModified\}
| Failed(cause) and describes the concrete shape as a dict
\{'outcome': 'yes'/'no'/'failed', 'current_version_pid': ..., 'record_date': ...\},
which is exactly how process_record consumes it (lines 190-229). -/
inductive CheckOutcome
  | yes (current_version_pid : String) (record_date : DateTime)
  | no
  | failed
  deriving DecidableEq, Repr

/-- A call made by process_record on the client manager, with the arguments
the adapter passes (d1_adapter_pangaea.py lines 190, 192, 218-219,
230-232). -/
inductive StoreCall
  | check (sid : String)
  | create (payload : String) (sid : String) (date : DateTime)
  | update (payload : String) (sid : String) (date : DateTime) (old_pid : String)
  | archive (pid : String)
  deriving DecidableEq, Repr

/-- Modelled from the spec: the client manager collaborator
(d1_client_manager_pangaea, not part of this source tree).  check is the
existence check; the spec gives create/update/archive the signatures
create -> versionId | Failed, update -> versionId | Failed,
archive -> Ack | Failed, and the adapter branches on the truthiness of each
return value, so they are modelled as success booleans keyed by the argument
the adapter passes. -/
structure ClientEnv where
  check : String → CheckOutcome
  createOk : String → Bool
  updateOk : String → Bool
  archiveOk : String → Bool

/-- The five global counters of d1_adapter_pangaea.py lines 69-73. -/
structure Counters where
  created : Nat
  updated : Nat
  archived : Nat
  skipped_exists : Nat
  skipped_deleted : Nat
  deriving DecidableEq, Repr

/-- The zero initialization of the five globals (lines 69-73). -/
def Counters.zero : Counters := ⟨0, 0, 0, 0, 0⟩

/-- Componentwise accumulation of counter increments. -/
def Counters.add (a b : Counters) : Counters :=
  ⟨a.created + b.created, a.updated + b.updated, a.archived + b.archived,
   a.skipped_exists + b.skipped_exists, a.skipped_deleted + b.skipped_deleted⟩

/-- An uncaught Python exception escaping process_record (and hence main,
which has no handler: the run aborts). -/
inductive PyExn
  | unboundLocal
  | attributeError
  deriving DecidableEq, Repr

/-- One OAI-PMH record element as process_record accesses it: the status
attribute of the header if present, the text of header/identifier (none when
the element or its text is missing), the text of header/datestamp, and the
serialized science-metadata payload (none when the metadata element or the
configured SCIMETA_ELEMENT child is missing). -/
structure OAIRecord where
  headerStatus : Option String
  headerIdentifier : Option String
  headerDatestamp : Option String
  metadataPayload : Option String
  deriving DecidableEq, Repr

/-- OAIPMH_Harvester.process_record (d1_adapter_pangaea.py lines 170-233).
Returns the list of client-manager calls made and the counter increments, or
the uncaught exception that aborts the run.

Deleted branch (lines 185-195): a record whose header carries a status
attribute equal to "deleted" is checked for existence; on outcome yes the
current version pid is archived (counted only if the archive call reports
success); on any other outcome skipped_deleted is incremented.  A header
whose identifier element or text is missing makes the attribute access
raise, uncaught.  A status attribute with any other value matches neither
branch and the record is ignored.

Active branch (lines 199-233): identifier, datestamp and payload are parsed
inside a try whose except only logs; afterwards the code unconditionally
reads the local checkExistsDict, which was never assigned when the try
failed before the existence check, so a parse failure raises an uncaught
NameError at line 217 — rendered here as PyExn.unboundLocal. -/
def process_record (env : ClientEnv) (record : OAIRecord) :
    Except PyExn (List StoreCall × Counters) :=
  match record.headerStatus with
  | some st =>
    if st = "deleted" then
      match record.headerIdentifier with
      | none => .error .attributeError
      | some rawId =>
        let identifier := nativeIdOf rawId
        match env.check identifier with
        | .yes pid _ =>
          if env.archiveOk pid then
            .ok ([.check identifier, .archive pid], ⟨0, 0, 1, 0, 0⟩)
          else
            .ok ([.check identifier, .archive pid], ⟨0, 0, 0, 0, 0⟩)
        | _ => .ok ([.check identifier], ⟨0, 0, 0, 0, 1⟩)
    else
      .ok ([], ⟨0, 0, 0, 0, 0⟩)
  | none =>
    match record.headerIdentifier, record.headerDatestamp.bind parseDatestamp,
          record.metadataPayload with
    | some rawId, some record_date, some scimeta =>
      let identifier := nativeIdOf rawId
      match env.check identifier with
      | .yes pid stored_date =>
        if stored_date ≠ record_date then
          if env.updateOk identifier then
            .ok ([.check identifier, .update scimeta identifier record_date pid], ⟨0, 1, 0, 0, 0⟩)
          else
            .ok ([.check identifier, .update scimeta identifier record_date pid], ⟨0, 0, 0, 0, 0⟩)
        else
          .ok ([.check identifier], ⟨0, 0, 0, 1, 0⟩)
      | .failed => .ok ([.check identifier], ⟨0, 0, 0, 0, 0⟩)
      | .no =>
        if env.createOk identifier then
          .ok ([.check identifier, .create scimeta identifier record_date], ⟨1, 0, 0, 0, 0⟩)
        else
          .ok ([.check identifier, .create scimeta identifier record_date], ⟨0, 0, 0, 0, 0⟩)
    | _, _, _ => .error .unboundLocal

/-- Recognizer for a create call that the client manager reported as
successful. -/
def is_successful_create (env : ClientEnv) : StoreCall → Bool
  | .create _ sid _ => env.createOk sid
  | _ => false

/-- Recognizer for an update call that the client manager reported as
successful. -/
def is_successful_update (env : ClientEnv) : StoreCall → Bool
  | .update _ sid _ _ => env.updateOk sid
  | _ => false

/-- Recognizer for an archive call that the client manager reported as
successful. -/
def is_successful_archive (env : ClientEnv) : StoreCall → Bool
  | .archive pid => env.archiveOk pid
  | _ => false

/-- One child element of the ListRecords element: either a record or the
resumptionToken element (whose text may be absent, as for the empty
<resumptionToken/> the protocol uses at result-set end).  The OAI-PMH schema
allows at most one resumptionToken child, which is what
record_list.find/record_list.remove in main (lines 91-96) operate on. -/
inductive Child
  | recordElem (r : OAIRecord)
  | rtokenElem (text : Option String)
  deriving DecidableEq, Repr

/-- True for a record child. -/
def isRecordChild : Child → Bool
  | .recordElem _ => true
  | .rtokenElem _ => false

/-- record_list.find("...resumptionToken") of main line 91: the first
resumptionToken child, carrying its text. -/
def find_rtoken : List Child → Option (Option String)
  | [] => none
  | .rtokenElem t :: _ => some t
  | .recordElem _ :: rest => find_rtoken rest

/-- record_list.remove(rtoken_record) of main line 96: removes the first
resumptionToken child. -/
def remove_rtoken : List Child → List Child
  | [] => []
  | .rtokenElem _ :: rest => rest
  | .recordElem r :: rest => .recordElem r :: remove_rtoken rest

/-- Processing a single child of the page in the for loop of main line 97:
a record child goes through process_record; a resumptionToken element (only
reachable if it was not removed) has no header child, so the attribute
access in process_record raises. -/
def process_child (env : ClientEnv) : Child → Except PyExn (List StoreCall × Counters)
  | .recordElem r => process_record env r
  | .rtokenElem _ => .error .attributeError

/-- The for loop of main lines 97-98: process the children in order,
accumulating the counter increments; an uncaught exception aborts the
loop (and the run). -/
def process_children (env : ClientEnv) : List Child → Counters → Except PyExn Counters
  | [], c => .ok c
  | x :: rest, c =>
    match process_child env x with
    | .error e => .error e
    | .ok (_, d) => process_children env rest (c.add d)

/-- The loop-control globals of d1_adapter_pangaea.py lines 75-76: start is
1 before the first request and 0 afterwards; rtoken holds the resumption
token extracted from the previous page, if any. -/
structure LoopState where
  start : Nat
  rtoken : Option String
  deriving DecidableEq, Repr

/-- The request parameter dictionaries built by define_params: either
\{verb: ListRecords, metadataPrefix, from\} or
\{verb: ListRecords, resumptionToken\}. -/
inductive Params
  | initial (metadataPrefix : String) (fromTime : String)
  | resumption (token : Option String)
  deriving DecidableEq, Repr

/-- OAIPMH_Harvester.define_params (lines 118-143): on the first call build
the timeslice query from last_harvest_time and clear start; on subsequent
calls build the resumption-token query and reset rtoken to None. -/
def define_params (last_harvest_time : String) (s : LoopState) : Params × LoopState :=
  if s.start = 1 then
    (Params.initial "iso19139" last_harvest_time, { s with start := 0 })
  else
    (Params.resumption s.rtoken, { s with rtoken := none })

/-- The while condition of main line 88:
(start == 1) or (start == 0 and rtoken is not None). -/
def loop_guard (s : LoopState) : Bool :=
  (s.start == 1) || ((s.start == 0) && s.rtoken.isSome)

/-- The token main extracts from a page: the text of the resumptionToken
element when one is present (an empty element yields None), and None when no
element is found. -/
def extract_rtoken (children : List Child) : Option String :=
  match find_rtoken children with
  | some t => t
  | none => none

/-- The token resulting from one fetch: a missing record list (get_records
returned None) leaves no token. -/
def extract_rtoken_of_fetch : Option (List Child) → Option String
  | none => none
  | some children => extract_rtoken children

/-- One iteration of the while loop of main lines 88-100, with the fetch
result supplied by the environment (the responses of the remote server form
an oracle sequence; the params built for the request are reported in the
first component).  Components: the params define_params built, the loop
state after the iteration, the children actually handed to the record for
loop, and the accumulated counters or the exception that aborted the run.
When a resumptionToken element is present it is removed from the child
sequence before any child is processed (lines 95-96); when the fetch
returned None the body does nothing (line 100) and rtoken keeps the value
define_params left (None except before the first request, where it is the
initial None). -/
def loop_body (last_harvest_time : String) (env : ClientEnv) (s : LoopState)
    (c : Counters) (fetched : Option (List Child)) :
    Params × LoopState × List Child × Except PyExn Counters :=
  let p := define_params last_harvest_time s
  (p.1,
    match fetched with
    | none => (p.2, [], .ok c)
    | some children =>
      match find_rtoken children with
      | none => ({ p.2 with rtoken := none }, children, process_children env children c)
      | some t =>
        ({ p.2 with rtoken := t }, remove_rtoken children,
          process_children env (remove_rtoken children) c))

/-- The while loop of main lines 88-100, iterated over the oracle sequence
of fetch results, one per request; the list also bounds the number of
iterations (the remote source serves finitely many pages).  Returns the
final loop state, the final counters and the trace of params built, or the
exception that aborted the run. -/
def run_loop (last_harvest_time : String) (env : ClientEnv) :
    LoopState → Counters → List (Option (List Child)) →
    Except PyExn (LoopState × Counters × List Params)
  | s, c, [] => .ok (s, c, [])
  | s, c, f :: fs =>
    if loop_guard s then
      let r := loop_body last_harvest_time env s c f
      match r.2.2.2 with
      | .error e => .error e
      | .ok c2 =>
        match run_loop last_harvest_time env r.2.1 c2 fs with
        | .error e => .error e
        | .ok (s2, c3, ps) => .ok (s2, c3, r.1 :: ps)
    else .ok (s, c, [])

/-- The outcome of one requests.get call in get_records: either the library
raised (transport error), or an HTTP response arrived with a status code and
— had the body been parsed — an optional ListRecords element. -/
inductive HttpResult
  | exn
  | response (status : Nat) (listRecords : Option (List Child))
  deriving DecidableEq, Repr

/-- OAIPMH_Harvester.get_records (lines 146-166): on status 200 the parsed
ListRecords element is returned (None when the body has no such element,
e.g. <error code="noRecordsMatch"/>); on any other status the error is
logged and the function falls through returning None; on a raised exception
likewise.  requests.codes.ok is 200. -/
def get_records (r : HttpResult) : Option (List Child) :=
  match r with
  | .exn => none
  | .response status listRecords => if status = 200 then listRecords else none

/-- The tracking-log line of main lines 103-105, reporting the five
counters. -/
def summary_line (timestamp : String) (c : Counters) : String :=
  timestamp ++ ", New Records Loaded: " ++ toString c.created ++
    ", Records Updated: " ++ toString c.updated ++
    ", Records archived: " ++ toString c.archived ++
    ", Deleted skipped: " ++ toString c.skipped_deleted ++
    ", existing skipped: " ++ toString c.skipped_exists ++ ".\n"

/-- main (lines 81-106): run the pagination loop from start = 1,
rtoken = None and the counters at zero, then append the summary line.  A
crashed run writes no summary. -/
def main_run (last_harvest_time : String) (now : String) (env : ClientEnv)
    (fetches : List (Option (List Child))) : Except PyExn (Counters × String) :=
  match run_loop last_harvest_time env ⟨1, none⟩ Counters.zero fetches with
  | .error e => .error e
  | .ok (_, c, _) => .ok (c, summary_line now c)

/-- A client environment in which no identifier exists and every mutation
succeeds. -/
def envNo : ClientEnv :=
  ⟨fun _ => .no, fun _ => true, fun _ => true, fun _ => true⟩

/-- A client environment in which every existence check fails. -/
def envFailed : ClientEnv :=
  ⟨fun _ => .failed, fun _ => false, fun _ => false, fun _ => false⟩

/-- A client environment in which every identifier exists with version pid
"884100_20170101_0000" and stored datestamp 2017-01-01T00:00:00Z, and every
mutation succeeds. -/
def envYes : ClientEnv :=
  ⟨fun sid => .yes (sid ++ "_20170101_0000") ⟨2017, 1, 1, 0, 0, 0⟩,
   fun _ => true, fun _ => true, fun _ => true⟩

/-- The datestamp 2017-05-24T11:00:00Z as a DateTime. -/
def dateW : DateTime := ⟨2017, 5, 24, 11, 0, 0⟩

/-- A well-formed active record. -/
def recActiveW : OAIRecord :=
  ⟨none, some "oai:pangaea.de:884100", some "2017-05-24T11:00:00Z", some "<md/>"⟩

/-- An active record whose datestamp does not parse. -/
def recBadDateW : OAIRecord :=
  ⟨none, some "oai:pangaea.de:884100", some "2017-05-24", some "<md/>"⟩

/-- The termination sentinel record: deleted status, identifier
oai:pangaea.de:deleted.dummy. -/
def sentinelW : OAIRecord :=
  ⟨some "deleted", some "oai:pangaea.de:deleted.dummy", none, none⟩

/-- stripAux ignores the fuel on the empty list. -/
theorem stripAux_nil (n : Nat) : stripAux n [] = [] := by
  cases n <;> rfl

/-- The fuel of stripAux is irrelevant once it reaches the length of the
list: each scanner step consumes at least one character. -/
theorem stripAux_fuel : ∀ (m n : Nat) (l : List Char),
    l.length ≤ m → l.length ≤ n → stripAux m l = stripAux n l := by
  intro m
  induction m with
  | zero =>
    intro n l hm _
    have hnil : l = [] := List.eq_nil_of_length_eq_zero (Nat.le_zero.mp hm)
    subst hnil
    rw [stripAux_nil, stripAux_nil]
  | succ m ih =>
    intro n l hm hn
    cases l with
    | nil => rw [stripAux_nil, stripAux_nil]
    | cons c rest =>
      cases n with
      | zero =>
        simp only [List.length_cons] at hn
        omega
      | succ k =>
        simp only [stripAux]
        have hdrop := List.length_drop (pangaeaPat.length - 1) rest
        simp only [List.length_cons] at hm hn
        by_cases hpre : pangaeaPat.isPrefixOf (c :: rest) = true
        · rw [if_pos hpre, if_pos hpre]
          exact ih k _ (by omega) (by omega)
        · rw [if_neg hpre, if_neg hpre]
          rw [ih k rest (by omega) (by omega)]

/-- A full match at the head of the list is consumed in one scanner step. -/
theorem stripAux_pat_step (n : Nat) (b : List Char) :
    stripAux (n + 15) (pangaeaPat ++ b) = stripAux (n + 14) b := by
  have hpre : pangaeaPat.isPrefixOf (pangaeaPat ++ b) = true := by
    rw [List.isPrefixOf_iff_prefix]
    exact List.prefix_append _ _
  have h15 : n + 15 = (n + 14) + 1 := by omega
  have happ : pangaeaPat ++ b =
      'o' :: (('a' :: 'i' :: ':' :: 'p' :: 'a' :: 'n' :: 'g' :: 'a' :: 'e' :: 'a' :: '.' :: 'd' :: 'e' :: ':'::[]) ++ b) :=
    rfl
  have hdrop : List.drop (pangaeaPat.length - 1)
      (('a' :: 'i' :: ':' :: 'p' :: 'a' :: 'n' :: 'g' :: 'a' :: 'e' :: 'a' :: '.' :: 'd' :: 'e' :: ':'::[]) ++ b) = b :=
    rfl
  have hpre2 : pangaeaPat.isPrefixOf
      ('o' :: (('a' :: 'i' :: ':' :: 'p' :: 'a' :: 'n' :: 'g' :: 'a' :: 'e' :: 'a' :: '.' :: 'd' :: 'e' :: ':'::[]) ++ b)) =
      true := happ ▸ hpre
  rw [h15, happ]
  simp only [stripAux]
  rw [if_pos hpre2, hdrop]

/-- stripPangaea on the empty list. -/
theorem stripPangaea_nil : stripPangaea [] = [] := rfl

/-- A position where the pattern does not match copies the character. -/
theorem stripPangaea_cons_nomatch (c : Char) (l : List Char)
    (h : pangaeaPat.isPrefixOf (c :: l) = false) :
    stripPangaea (c :: l) = c :: stripPangaea l := by
  have h2 : ¬ (pangaeaPat.isPrefixOf (c :: l) = true) := by simp [h]
  show stripAux (c :: l).length (c :: l) = c :: stripAux l.length l
  simp only [List.length_cons, stripAux, if_neg h2]

/-- An occurrence of the pattern at the head of the list is removed. -/
theorem stripPangaea_pat_append (b : List Char) :
    stripPangaea (pangaeaPat ++ b) = stripPangaea b := by
  have hp15 : pangaeaPat.length = 15 := rfl
  have hl : (pangaeaPat ++ b).length = b.length + 15 := by
    rw [List.length_append, hp15]; omega
  show stripAux (pangaeaPat ++ b).length (pangaeaPat ++ b) = stripAux b.length b
  rw [hl, stripAux_pat_step]
  exact stripAux_fuel (b.length + 14) b.length b (by omega) (Nat.le_refl _)

/-- Deleted branch, identifier not in GMN (lines 190, 194-195): only the
existence check happens and skipped_deleted is incremented. -/
theorem process_deleted_no (env : ClientEnv) (rawId : String) (ds md : Option String)
    (h : env.check (nativeIdOf rawId) = .no) :
    process_record env ⟨some "deleted", some rawId, ds, md⟩ =
      .ok ([.check (nativeIdOf rawId)], ⟨0, 0, 0, 0, 1⟩) := by
  simp [process_record, h]

/-- Deleted branch, identifier in GMN, archive succeeds (lines 191-193):
archive the current version pid and count archived. -/
theorem process_deleted_yes (env : ClientEnv) (rawId : String) (ds md : Option String)
    (pid : String) (d0 : DateTime)
    (h : env.check (nativeIdOf rawId) = .yes pid d0) (hok : env.archiveOk pid = true) :
    process_record env ⟨some "deleted", some rawId, ds, md⟩ =
      .ok ([.check (nativeIdOf rawId), .archive pid], ⟨0, 0, 1, 0, 0⟩) := by
  simp [process_record, h, hok]

/-- Deleted branch, existence check failed: the failed outcome is not
distinguished from the not-exists outcome (line 191 tests only for yes), so
the else branch of line 194 increments skipped_deleted. -/
theorem process_deleted_failed (env : ClientEnv) (rawId : String) (ds md : Option String)
    (h : env.check (nativeIdOf rawId) = .failed) :
    process_record env ⟨some "deleted", some rawId, ds, md⟩ =
      .ok ([.check (nativeIdOf rawId)], ⟨0, 0, 0, 0, 1⟩) := by
  simp [process_record, h]

/-- Active branch, identifier not in GMN, create succeeds (lines 229-233):
create and count created. -/
theorem process_active_create (env : ClientEnv) (rawId ds pl : String) (date : DateTime)
    (hd : parseDatestamp ds = some date)
    (h : env.check (nativeIdOf rawId) = .no)
    (hok : env.createOk (nativeIdOf rawId) = true) :
    process_record env ⟨none, some rawId, some ds, some pl⟩ =
      .ok ([.check (nativeIdOf rawId), .create pl (nativeIdOf rawId) date],
        ⟨1, 0, 0, 0, 0⟩) := by
  simp [process_record, hd, h, hok]

/-- Active branch, identifier in GMN with equal datestamp (lines 222-224):
no mutation call, skipped_exists is incremented. -/
theorem process_active_skip (env : ClientEnv) (rawId ds pl : String) (date : DateTime)
    (pid : String)
    (hd : parseDatestamp ds = some date)
    (h : env.check (nativeIdOf rawId) = .yes pid date) :
    process_record env ⟨none, some rawId, some ds, some pl⟩ =
      .ok ([.check (nativeIdOf rawId)], ⟨0, 0, 0, 1, 0⟩) := by
  simp [process_record, hd, h]

/-- Active branch, identifier in GMN with differing datestamp, update
succeeds (lines 217-220): update with the current version pid and count
updated. -/
theorem process_active_update (env : ClientEnv) (rawId ds pl : String)
    (date stored : DateTime) (pid : String)
    (hd : parseDatestamp ds = some date)
    (h : env.check (nativeIdOf rawId) = .yes pid stored) (hne : stored ≠ date)
    (hok : env.updateOk (nativeIdOf rawId) = true) :
    process_record env ⟨none, some rawId, some ds, some pl⟩ =
      .ok ([.check (nativeIdOf rawId), .update pl (nativeIdOf rawId) date pid],
        ⟨0, 1, 0, 0, 0⟩) := by
  simp [process_record, hd, h, hne, hok]

/-- Active branch, existence check failed (lines 226-227): no action, no
counter. -/
theorem process_active_failed (env : ClientEnv) (rawId ds pl : String) (date : DateTime)
    (hd : parseDatestamp ds = some date)
    (h : env.check (nativeIdOf rawId) = .failed) :
    process_record env ⟨none, some rawId, some ds, some pl⟩ =
      .ok ([.check (nativeIdOf rawId)], ⟨0, 0, 0, 0, 0⟩) := by
  simp [process_record, hd, h]

/-- A status attribute with any value other than "deleted" matches neither
branch of process_record (the inner if of line 186 has no else, and the
outer else of line 199 is not reached): the record is ignored entirely. -/
theorem process_unknown_status (env : ClientEnv) (st : String)
    (idv ds md : Option String) (h : st ≠ "deleted") :
    process_record env ⟨some st, idv, ds, md⟩ = .ok ([], ⟨0, 0, 0, 0, 0⟩) := by
  simp [process_record, h]

/-- C9: the wire-identifier-to-nativeId translation implements Python
str.replace, which removes every occurrence of "oai:pangaea.de:" scanning
left to right, not only a leading prefix: prepending the pattern strips it,
and an occurrence after an arbitrary prefix (in which no occurrence starts
earlier) is removed as well, as the concrete non-leading example shows. -/
theorem C9_strip_all_occurrences :
    (∀ b : List Char, stripPangaea (pangaeaPat ++ b) = stripPangaea b)
    ∧ (∀ a b : List Char,
        (∀ i, i < a.length →
          pangaeaPat.isPrefixOf (List.drop i (a ++ pangaeaPat ++ b)) = false) →
        stripPangaea (a ++ pangaeaPat ++ b) = a ++ stripPangaea b)
    ∧ nativeIdOf "doi:oai:pangaea.de:884100" = "doi:884100" := by
  refine ⟨stripPangaea_pat_append, ?_, rfl⟩
  intro a
  induction a with
  | nil =>
    intro b _
    simpa using stripPangaea_pat_append b
  | cons c a2 ih =>
    intro b h
    have hcons : (c :: a2) ++ pangaeaPat ++ b = c :: (a2 ++ pangaeaPat ++ b) := by
      simp
    have h0 : pangaeaPat.isPrefixOf (c :: (a2 ++ pangaeaPat ++ b)) = false := by
      have h1 := h 0 (by simp only [List.length_cons]; omega)
      rw [hcons] at h1
      simpa using h1
    have hsub : ∀ i, i < a2.length →
        pangaeaPat.isPrefixOf (List.drop i (a2 ++ pangaeaPat ++ b)) = false := by
      intro i hi
      have h2 := h (i + 1) (by simp only [List.length_cons]; omega)
      rw [hcons] at h2
      simpa [List.drop_succ_cons] using h2
    rw [hcons, stripPangaea_cons_nomatch _ _ h0, ih b hsub, List.cons_append]

/-- Witness for C9 at the concrete prefix "doi:" and suffix "84". -/
theorem C9_strip_all_occurrences_witness :
    stripPangaea (('d' :: 'o' :: 'i' :: ':'::[]) ++ pangaeaPat ++ ('8' :: '4'::[])) =
      ('d' :: 'o' :: 'i' :: ':'::[]) ++ stripPangaea ('8' :: '4'::[]) :=
  C9_strip_all_occurrences.2.1 ('d' :: 'o' :: 'i' :: ':'::[]) ('8' :: '4'::[]) (by decide)

/-- C10: a record whose header carries a status attribute with any value
other than "deleted" is processed by neither the deleted branch nor the
active branch of process_record: no client-manager call is made and no
counter changes. -/
theorem C10_unknown_status (env : ClientEnv) (st : String)
    (idv ds md : Option String) (h : st ≠ "deleted") :
    process_record env ⟨some st, idv, ds, md⟩ = .ok ([], ⟨0, 0, 0, 0, 0⟩) :=
  process_unknown_status env st idv ds md h

/-- Witness for C10 at the status value "new". -/
theorem C10_unknown_status_witness :
    process_record envNo ⟨some "new", some "x", none, none⟩ =
      .ok ([], ⟨0, 0, 0, 0, 0⟩) :=
  C10_unknown_status envNo "new" (some "x") none none (by decide)

/-- C5 evidence: _generate_version_pid renders the minting instant with
minute resolution ("_%Y%m%d_%H%M"), so two mints for the same nativeId at
distinct instants within the same minute produce the identical version pid
"884100_20180115_1200" — the code cannot satisfy the claimed uniqueness. -/
theorem C5_version_pid_collision :
    generate_version_pid "884100" ⟨2018, 1, 15, 12, 0, 10⟩ =
      generate_version_pid "884100" ⟨2018, 1, 15, 12, 0, 50⟩
    ∧ (⟨2018, 1, 15, 12, 0, 10⟩ : DateTime) ≠ ⟨2018, 1, 15, 12, 0, 50⟩
    ∧ generate_version_pid "884100" ⟨2018, 1, 15, 12, 0, 10⟩ = "884100_20180115_1200" :=
  ⟨rfl, by decide, rfl⟩

/-- C4 counterexample: the sentinel record (status deleted, identifier
oai:pangaea.de:deleted.dummy) is not discarded by identifier match — it goes
through the ordinary deleted branch, an existence check is issued for
"deleted.dummy", and skipped_deleted is incremented, refuting "never
increments any counter". -/
theorem C4_counterexample :
    process_record envNo sentinelW =
      .ok ([.check "deleted.dummy"], ⟨0, 0, 0, 0, 1⟩)
    ∧ (⟨0, 0, 0, 0, 1⟩ : Counters) ≠ Counters.zero :=
  ⟨rfl, by decide⟩

/-- C4 amended: the sentinel record is handled by the deleted branch, not by
identifier match; an existence check for "deleted.dummy" is made, and since
the sentinel never exists in GMN the record is never created, updated or
archived but increments skipped_deleted — also when a continuation token is
present in the same page, whose extraction is unaffected. -/
theorem C4_sentinel :
    (∀ (env : ClientEnv) (ds md : Option String), env.check "deleted.dummy" = .no →
      process_record env ⟨some "deleted", some "oai:pangaea.de:deleted.dummy", ds, md⟩ =
        .ok ([.check "deleted.dummy"], ⟨0, 0, 0, 0, 1⟩))
    ∧ (∀ (lastH : String) (env : ClientEnv) (c : Counters) (t : Option String),
        env.check "deleted.dummy" = .no →
        (loop_body lastH env ⟨0, some "tk"⟩ c
            (some [Child.rtokenElem t, Child.recordElem sentinelW])).2.1.rtoken = t
        ∧ (loop_body lastH env ⟨0, some "tk"⟩ c
            (some [Child.rtokenElem t, Child.recordElem sentinelW])).2.2.2 =
          .ok (c.add ⟨0, 0, 0, 0, 1⟩)) := by
  have hid : nativeIdOf "oai:pangaea.de:deleted.dummy" = "deleted.dummy" := rfl
  constructor
  · intro env ds md h
    simp [process_record, hid, h]
  · intro lastH env c t h
    constructor
    · simp [loop_body, define_params, find_rtoken]
    · simp [loop_body, define_params, find_rtoken, remove_rtoken, process_children,
        process_child, sentinelW, process_record, hid, h]

/-- Witness for C4 at the all-no client environment. -/
theorem C4_sentinel_witness :
    process_record envNo ⟨some "deleted", some "oai:pangaea.de:deleted.dummy",
        none, none⟩ = .ok ([.check "deleted.dummy"], ⟨0, 0, 0, 0, 1⟩)
    ∧ (loop_body "t0" envNo ⟨0, some "tk"⟩ Counters.zero
        (some [Child.rtokenElem (some "tk2"), Child.recordElem sentinelW])).2.2.2 =
      .ok (Counters.zero.add ⟨0, 0, 0, 0, 1⟩) :=
  ⟨C4_sentinel.1 envNo none none rfl,
   (C4_sentinel.2 "t0" envNo Counters.zero (some "tk2") rfl).2⟩

/-- C1 counterexample: a DELETED record whose existence check failed is
still counted — the deleted branch tests only for the yes outcome, so the
failed outcome falls into the else of line 194 and skipped_deleted is
incremented, refuting "no counter is incremented" for the check-failed
row. -/
theorem C1_counterexample :
    process_record envFailed ⟨some "deleted", some "oai:pangaea.de:884100", none, none⟩ =
      .ok ([.check "884100"], ⟨0, 0, 0, 0, 1⟩)
    ∧ envFailed.check "884100" = .failed
    ∧ (⟨0, 0, 0, 0, 1⟩ : Counters) ≠ Counters.zero :=
  ⟨rfl, rfl, by decide⟩

/-- C1 amended: the decision table as the code implements it.  A DELETED
record with no target entry is a no-op counted as skipped_deleted; a DELETED
record with an existing entry archives the current version pid and counts
archived; an ACTIVE record with no entry creates and counts created; an
ACTIVE record with an existing entry and equal datestamps is a no-op counted
as skipped_exists; an ACTIVE record with an existing entry and a differing
datestamp updates and counts updated; when the existence check fails for an
ACTIVE record no action is taken and no counter changes, but when it fails
for a DELETED record the failed outcome is indistinguishable from
not-exists and skipped_deleted is incremented. -/
theorem C1_decision_table :
    (∀ (env : ClientEnv) (rawId : String) (ds md : Option String),
      env.check (nativeIdOf rawId) = .no →
      process_record env ⟨some "deleted", some rawId, ds, md⟩ =
        .ok ([.check (nativeIdOf rawId)], ⟨0, 0, 0, 0, 1⟩))
    ∧ (∀ (env : ClientEnv) (rawId : String) (ds md : Option String)
        (pid : String) (d0 : DateTime),
        env.check (nativeIdOf rawId) = .yes pid d0 → env.archiveOk pid = true →
        process_record env ⟨some "deleted", some rawId, ds, md⟩ =
          .ok ([.check (nativeIdOf rawId), .archive pid], ⟨0, 0, 1, 0, 0⟩))
    ∧ (∀ (env : ClientEnv) (rawId ds pl : String) (date : DateTime),
        parseDatestamp ds = some date → env.check (nativeIdOf rawId) = .no →
        env.createOk (nativeIdOf rawId) = true →
        process_record env ⟨none, some rawId, some ds, some pl⟩ =
          .ok ([.check (nativeIdOf rawId), .create pl (nativeIdOf rawId) date],
            ⟨1, 0, 0, 0, 0⟩))
    ∧ (∀ (env : ClientEnv) (rawId ds pl : String) (date : DateTime) (pid : String),
        parseDatestamp ds = some date → env.check (nativeIdOf rawId) = .yes pid date →
        process_record env ⟨none, some rawId, some ds, some pl⟩ =
          .ok ([.check (nativeIdOf rawId)], ⟨0, 0, 0, 1, 0⟩))
    ∧ (∀ (env : ClientEnv) (rawId ds pl : String) (date stored : DateTime) (pid : String),
        parseDatestamp ds = some date → env.check (nativeIdOf rawId) = .yes pid stored →
        stored ≠ date → env.updateOk (nativeIdOf rawId) = true →
        process_record env ⟨none, some rawId, some ds, some pl⟩ =
          .ok ([.check (nativeIdOf rawId), .update pl (nativeIdOf rawId) date pid],
            ⟨0, 1, 0, 0, 0⟩))
    ∧ (∀ (env : ClientEnv) (rawId ds pl : String) (date : DateTime),
        parseDatestamp ds = some date → env.check (nativeIdOf rawId) = .failed →
        process_record env ⟨none, some rawId, some ds, some pl⟩ =
          .ok ([.check (nativeIdOf rawId)], ⟨0, 0, 0, 0, 0⟩))
    ∧ (∀ (env : ClientEnv) (rawId : String) (ds md : Option String),
        env.check (nativeIdOf rawId) = .failed →
        process_record env ⟨some "deleted", some rawId, ds, md⟩ =
          .ok ([.check (nativeIdOf rawId)], ⟨0, 0, 0, 0, 1⟩)) :=
  ⟨fun env rawId ds md h => process_deleted_no env rawId ds md h,
   fun env rawId ds md pid d0 h hok => process_deleted_yes env rawId ds md pid d0 h hok,
   fun env rawId ds pl date hd h hok => process_active_create env rawId ds pl date hd h hok,
   fun env rawId ds pl date pid hd h => process_active_skip env rawId ds pl date pid hd h,
   fun env rawId ds pl date stored pid hd h hne hok =>
     process_active_update env rawId ds pl date stored pid hd h hne hok,
   fun env rawId ds pl date hd h => process_active_failed env rawId ds pl date hd h,
   fun env rawId ds md h => process_deleted_failed env rawId ds md h⟩

/-- Witness for C1 at the create row. -/
theorem C1_decision_table_witness :
    process_record envNo ⟨none, some "oai:pangaea.de:884100",
        some "2017-05-24T11:00:00Z", some "<md/>"⟩ =
      .ok ([.check (nativeIdOf "oai:pangaea.de:884100"),
            .create "<md/>" (nativeIdOf "oai:pangaea.de:884100") dateW],
        ⟨1, 0, 0, 0, 0⟩) :=
  C1_decision_table.2.2.1 envNo "oai:pangaea.de:884100" "2017-05-24T11:00:00Z" "<md/>"
    dateW rfl rfl rfl

/-- C6: the existence-check result distinguishes three outcomes — yes
(carrying the current version pid and the stored record date), no, and
failed — and process_record matches on that outcome: for an existing record
the carried pid is the one passed to archive (deleted branch) and update
(active branch), and the carried date is the one compared against the
harvested datestamp (equal dates skip, counted as skipped_exists). -/
theorem C6_check_outcome :
    (∀ o : CheckOutcome, (∃ pid d, o = .yes pid d) ∨ o = .no ∨ o = .failed)
    ∧ (∀ (env : ClientEnv) (rawId : String) (ds md : Option String) (pid : String)
        (d0 : DateTime), env.check (nativeIdOf rawId) = .yes pid d0 →
        ∃ cnt, process_record env ⟨some "deleted", some rawId, ds, md⟩ =
          .ok ([.check (nativeIdOf rawId), .archive pid], cnt))
    ∧ (∀ (env : ClientEnv) (rawId ds pl : String) (date stored : DateTime)
        (pid : String), parseDatestamp ds = some date →
        env.check (nativeIdOf rawId) = .yes pid stored → stored ≠ date →
        ∃ cnt, process_record env ⟨none, some rawId, some ds, some pl⟩ =
          .ok ([.check (nativeIdOf rawId), .update pl (nativeIdOf rawId) date pid], cnt))
    ∧ (∀ (env : ClientEnv) (rawId ds pl : String) (date : DateTime) (pid : String),
        parseDatestamp ds = some date → env.check (nativeIdOf rawId) = .yes pid date →
        process_record env ⟨none, some rawId, some ds, some pl⟩ =
          .ok ([.check (nativeIdOf rawId)], ⟨0, 0, 0, 1, 0⟩)) := by
  refine ⟨?_, ?_, ?_, ?_⟩
  · intro o
    cases o with
    | yes pid d => exact Or.inl ⟨pid, d, rfl⟩
    | no => exact Or.inr (Or.inl rfl)
    | failed => exact Or.inr (Or.inr rfl)
  · intro env rawId ds md pid d0 h
    cases hok : env.archiveOk pid with
    | true => exact ⟨⟨0, 0, 1, 0, 0⟩, process_deleted_yes env rawId ds md pid d0 h hok⟩
    | false =>
      refine ⟨⟨0, 0, 0, 0, 0⟩, ?_⟩
      simp [process_record, h, hok]
  · intro env rawId ds pl date stored pid hd h hne
    cases hok : env.updateOk (nativeIdOf rawId) with
    | true =>
      exact ⟨⟨0, 1, 0, 0, 0⟩, process_active_update env rawId ds pl date stored pid hd h hne hok⟩
    | false =>
      refine ⟨⟨0, 0, 0, 0, 0⟩, ?_⟩
      simp [process_record, hd, h, hne, hok]
  · intro env rawId ds pl date pid hd h
    exact process_active_skip env rawId ds pl date pid hd h

/-- Witness for C6 at the skip row of the environment in which every
identifier exists with stored date 2017-01-01T00:00:00Z. -/
theorem C6_check_outcome_witness :
    process_record envYes ⟨none, some "oai:pangaea.de:884100",
        some "2017-01-01T00:00:00Z", some "<md/>"⟩ =
      .ok ([.check (nativeIdOf "oai:pangaea.de:884100")], ⟨0, 0, 0, 1, 0⟩) :=
  C6_check_outcome.2.2.2 envYes "oai:pangaea.de:884100" "2017-01-01T00:00:00Z" "<md/>"
    ⟨2017, 1, 1, 0, 0, 0⟩ "884100_20170101_0000" rfl rfl

/-- C7 counterexample: get_records returns None alike for a non-success
HTTP response, a raised transport exception, and a successful response whose
body matches no records — fetch failure is not an outcome distinct from the
empty result. -/
theorem C7_counterexample :
    get_records (HttpResult.response 500 (some [])) = none
    ∧ get_records HttpResult.exn = none
    ∧ get_records (HttpResult.response 200 none) = none :=
  ⟨rfl, rfl, rfl⟩

/-- C7 amended: on a transport error or non-success response get_records
returns None — the same value as for a successful response matching no
records, so the two are not distinguished; in either case the loop body past
the first request leaves no token and the while guard fails, so pagination
does not continue. -/
theorem C7_fetch_failure :
    (∀ (st : Nat) (b : Option (List Child)), st ≠ 200 →
      get_records (HttpResult.response st b) = none)
    ∧ get_records HttpResult.exn = none
    ∧ (∀ b, get_records (HttpResult.response 200 b) = b)
    ∧ (∀ (lastH : String) (env : ClientEnv) (s : LoopState) (c : Counters),
        s.start = 0 → loop_guard (loop_body lastH env s c none).2.1 = false) := by
  refine ⟨?_, rfl, ?_, ?_⟩
  · intro st b h
    simp [get_records, h]
  · intro b
    simp [get_records]
  · intro lastH env s c h
    obtain ⟨st, tok⟩ := s
    simp only at h
    subst h
    simp [loop_body, define_params, loop_guard]

/-- Witness for C7: a concrete 500 response and a concrete post-first-page
loop state. -/
theorem C7_fetch_failure_witness :
    get_records (HttpResult.response 500 none) = none
    ∧ loop_guard (loop_body "t0" envNo ⟨0, some "tk"⟩ Counters.zero none).2.1 = false :=
  ⟨C7_fetch_failure.1 500 none (by decide),
   C7_fetch_failure.2.2.2 "t0" envNo ⟨0, some "tk"⟩ Counters.zero rfl⟩

/-- C8 evidence: an ACTIVE record whose datestamp does not parse makes the
try of lines 200-211 fail after only logging; control then reaches line 217,
which reads the local checkExistsDict that was never assigned, raising an
uncaught NameError that propagates through main (which has no handler): the
run aborts and the following record of the page is never processed —
contradicting the claim that a per-record parse failure never aborts the
run.  (Client-manager call errors, by contrast, are returned as failure
values and do continue, as the decision-table rows show.) -/
theorem C8_parse_failure_aborts :
    process_record envNo recBadDateW = .error .unboundLocal
    ∧ process_children envNo
        [Child.recordElem recBadDateW, Child.recordElem recActiveW] Counters.zero =
      .error .unboundLocal
    ∧ main_run "t0" "now" envNo [some [Child.recordElem recBadDateW]] =
      .error .unboundLocal :=
  ⟨rfl, rfl, rfl⟩

/-- C3: the pagination protocol.  The first request is built from the
timeslice watermark (with verb ListRecords and metadataPrefix iso19139) and
flips start to 0; every later request is built from the stored token, which
after any non-first iteration equals exactly the token extracted from the
immediately preceding page (or None when the fetch yielded nothing); a
resumptionToken element, when present, is removed from the child sequence
before any child of the page is processed — find/remove locate precisely the
first token element; the guard holds unconditionally before the first
request and afterwards exactly while a non-null token is stored; and the
params trace of a run starts with the initial timeslice request. -/
theorem C3_pagination :
    (∀ (lastH : String) (tok : Option String),
      define_params lastH ⟨1, tok⟩ =
        (Params.initial "iso19139" lastH, (⟨0, tok⟩ : LoopState)))
    ∧ (∀ (lastH : String) (st : Nat) (tok : Option String), st ≠ 1 →
      define_params lastH ⟨st, tok⟩ =
        (Params.resumption tok, (⟨st, none⟩ : LoopState)))
    ∧ (∀ (lastH : String) (env : ClientEnv) (s : LoopState) (c : Counters)
        (children : List Child) (t : Option String), find_rtoken children = some t →
        (loop_body lastH env s c (some children)).2.2.1 = remove_rtoken children
        ∧ (loop_body lastH env s c (some children)).2.1.rtoken = t)
    ∧ (∀ (lastH : String) (env : ClientEnv) (s : LoopState) (c : Counters)
        (f : Option (List Child)), s.start = 0 ∨ s.rtoken = none →
        (loop_body lastH env s c f).2.1.rtoken = extract_rtoken_of_fetch f)
    ∧ (∀ tok : Option String, loop_guard ⟨1, tok⟩ = true)
    ∧ (∀ tok : Option String, loop_guard ⟨0, tok⟩ = tok.isSome)
    ∧ (∀ (a : List Child) (t : Option String) (b : List Child),
        (∀ x ∈ a, isRecordChild x = true) →
        find_rtoken (a ++ Child.rtokenElem t :: b) = some t
        ∧ remove_rtoken (a ++ Child.rtokenElem t :: b) = a ++ b)
    ∧ (∀ (lastH : String) (env : ClientEnv) (c : Counters) (f : Option (List Child))
        (fs : List (Option (List Child))) (s2 : LoopState) (c2 : Counters)
        (ps : List Params),
        run_loop lastH env ⟨1, none⟩ c (f :: fs) = .ok (s2, c2, ps) →
        ∃ tl, ps = Params.initial "iso19139" lastH :: tl) := by
  refine ⟨?_, ?_, ?_, ?_, ?_, ?_, ?_, ?_⟩
  · intro lastH tok
    simp [define_params]
  · intro lastH st tok h
    simp [define_params, h]
  · intro lastH env s c children t h
    constructor
    · simp [loop_body, h]
    · simp [loop_body, h]
  · intro lastH env s c f h
    obtain ⟨st, tok⟩ := s
    cases f with
    | none =>
      rcases h with h | h
      · simp only at h
        subst h
        simp [loop_body, define_params, extract_rtoken_of_fetch]
      · simp only at h
        subst h
        by_cases hst : st = 1
        · subst hst
          simp [loop_body, define_params, extract_rtoken_of_fetch]
        · simp [loop_body, define_params, extract_rtoken_of_fetch, hst]
    | some children =>
      cases hft : find_rtoken children with
      | none => simp [loop_body, hft, extract_rtoken_of_fetch, extract_rtoken]
      | some t => simp [loop_body, hft, extract_rtoken_of_fetch, extract_rtoken]
  · intro tok
    rfl
  · intro tok
    rfl
  · intro a t b ha
    induction a with
    | nil => exact ⟨rfl, rfl⟩
    | cons x a2 ih =>
      have hx : isRecordChild x = true := ha x (List.mem_cons_self x a2)
      have ha2 : ∀ y ∈ a2, isRecordChild y = true :=
        fun y hy => ha y (List.mem_cons_of_mem x hy)
      cases x with
      | rtokenElem t2 => simp [isRecordChild] at hx
      | recordElem r =>
        obtain ⟨ih1, ih2⟩ := ih ha2
        constructor
        · simpa [find_rtoken] using ih1
        · simpa [remove_rtoken] using ih2
  · intro lastH env c f fs s2 c2 ps h
    have hg : loop_guard ⟨1, none⟩ = true := rfl
    have hp : (loop_body lastH env ⟨1, none⟩ c f).1 = Params.initial "iso19139" lastH := rfl
    simp only [run_loop, hg, if_true] at h
    cases hlb : (loop_body lastH env ⟨1, none⟩ c f).2.2.2 with
    | error e => rw [hlb] at h; simp at h
    | ok c3 =>
      rw [hlb] at h
      dsimp only [] at h
      cases hrl : run_loop lastH env (loop_body lastH env ⟨1, none⟩ c f).2.1 c3 fs with
      | error e => rw [hrl] at h; simp at h
      | ok trip =>
        obtain ⟨s4, c4, ps4⟩ := trip
        rw [hrl] at h
        simp only [Except.ok.injEq, Prod.mk.injEq] at h
        obtain ⟨_, _, hps⟩ := h
        exact ⟨ps4, by rw [← hps, hp]⟩

/-- Witness for C3: the token-removal conjunct and the guard conjuncts at a
concrete page, and a concrete run whose params trace starts with the
timeslice request. -/
theorem C3_pagination_witness :
    (loop_body "t0" envNo ⟨0, some "tk"⟩ Counters.zero
        (some [Child.recordElem recActiveW, Child.rtokenElem (some "tk2")])).2.2.1 =
      remove_rtoken [Child.recordElem recActiveW, Child.rtokenElem (some "tk2")]
    ∧ (loop_body "t0" envNo ⟨0, some "tk"⟩ Counters.zero
        (some [Child.recordElem recActiveW, Child.rtokenElem (some "tk2")])).2.1.rtoken =
      some "tk2"
    ∧ find_rtoken [Child.recordElem recActiveW, Child.rtokenElem (some "tk2")] =
      some (some "tk2")
    ∧ remove_rtoken [Child.recordElem recActiveW, Child.rtokenElem (some "tk2")] =
      [Child.recordElem recActiveW]
    ∧ (∃ tl, [Params.initial "iso19139" "t0"] = Params.initial "iso19139" "t0" :: tl) :=
  ⟨(C3_pagination.2.2.1 "t0" envNo ⟨0, some "tk"⟩ Counters.zero
      [Child.recordElem recActiveW, Child.rtokenElem (some "tk2")] (some "tk2") rfl).1,
   (C3_pagination.2.2.1 "t0" envNo ⟨0, some "tk"⟩ Counters.zero
      [Child.recordElem recActiveW, Child.rtokenElem (some "tk2")] (some "tk2") rfl).2,
   (C3_pagination.2.2.2.2.2.2.1 [Child.recordElem recActiveW] (some "tk2") []
      (by intro x hx; simp at hx; subst hx; rfl)).1,
   by
    have h2 := (C3_pagination.2.2.2.2.2.2.1 [Child.recordElem recActiveW] (some "tk2") []
      (by intro x hx; simp at hx; subst hx; rfl)).2
    simpa using h2,
   C3_pagination.2.2.2.2.2.2.2 "t0" envNo Counters.zero none [] ⟨0, none⟩ Counters.zero
     [Params.initial "iso19139" "t0"] rfl⟩

/-- C2: the five counters start at zero (lines 69-73); each processed record
increments at most one counter, by exactly one, and the created, updated and
archived counters count exactly the create, update and archive calls of the
record that the client manager reported successful; the run summary written
at run end reports the five counters (and an empty run reports all
zeros). -/
theorem C2_counters :
    (Counters.zero.created = 0 ∧ Counters.zero.updated = 0 ∧
      Counters.zero.archived = 0 ∧ Counters.zero.skipped_exists = 0 ∧
      Counters.zero.skipped_deleted = 0)
    ∧ (∀ (env : ClientEnv) (r : OAIRecord) (tr : List StoreCall) (d : Counters),
        process_record env r = .ok (tr, d) →
        d.created + d.updated + d.archived + d.skipped_exists + d.skipped_deleted ≤ 1
        ∧ d.created = tr.countP (is_successful_create env)
        ∧ d.updated = tr.countP (is_successful_update env)
        ∧ d.archived = tr.countP (is_successful_archive env))
    ∧ (∀ (lastH now : String) (env : ClientEnv) (fetches : List (Option (List Child)))
        (c : Counters) (s : String), main_run lastH now env fetches = .ok (c, s) →
        s = summary_line now c)
    ∧ (∀ (lastH now : String) (env : ClientEnv),
        main_run lastH now env [] = .ok (Counters.zero, summary_line now Counters.zero)) := by
  refine ⟨⟨rfl, rfl, rfl, rfl, rfl⟩, ?_, ?_, ?_⟩
  · intro env r tr d h
    obtain ⟨hs, hid, hds, hmd⟩ := r
    cases hs with
    | some st =>
      by_cases hdel : st = "deleted"
      · subst hdel
        cases hid with
        | none => simp [process_record] at h
        | some rawId =>
          cases hchk : env.check (nativeIdOf rawId) with
          | yes pid d0 =>
            cases hok : env.archiveOk pid with
            | true =>
              simp [process_record, hchk, hok] at h
              obtain ⟨rfl, rfl⟩ := h
              refine ⟨by decide, ?_, ?_, ?_⟩ <;>
                simp [List.countP_cons, List.countP_nil, is_successful_create,
                  is_successful_update, is_successful_archive, hok]
            | false =>
              simp [process_record, hchk, hok] at h
              obtain ⟨rfl, rfl⟩ := h
              refine ⟨by decide, ?_, ?_, ?_⟩ <;>
                simp [List.countP_cons, List.countP_nil, is_successful_create,
                  is_successful_update, is_successful_archive, hok]
          | no =>
            simp [process_record, hchk] at h
            obtain ⟨rfl, rfl⟩ := h
            refine ⟨by decide, ?_, ?_, ?_⟩ <;>
              simp [List.countP_cons, List.countP_nil, is_successful_create,
                is_successful_update, is_successful_archive]
          | failed =>
            simp [process_record, hchk] at h
            obtain ⟨rfl, rfl⟩ := h
            refine ⟨by decide, ?_, ?_, ?_⟩ <;>
              simp [List.countP_cons, List.countP_nil, is_successful_create,
                is_successful_update, is_successful_archive]
      · simp [process_record, hdel] at h
        obtain ⟨rfl, rfl⟩ := h
        exact ⟨by decide, rfl, rfl, rfl⟩
    | none =>
      cases hid with
      | none => simp [process_record] at h
      | some rawId =>
        cases hbd : hds.bind parseDatestamp with
        | none => simp [process_record, hbd] at h
        | some date =>
          cases hmd with
          | none => simp [process_record, hbd] at h
          | some pl =>
            cases hchk : env.check (nativeIdOf rawId) with
            | yes pid stored =>
              by_cases hdate : stored = date
              · subst hdate
                simp [process_record, hbd, hchk] at h
                obtain ⟨rfl, rfl⟩ := h
                refine ⟨by decide, ?_, ?_, ?_⟩ <;>
                  simp [List.countP_cons, List.countP_nil, is_successful_create,
                    is_successful_update, is_successful_archive]
              · cases hok : env.updateOk (nativeIdOf rawId) with
                | true =>
                  simp [process_record, hbd, hchk, hdate, hok] at h
                  obtain ⟨rfl, rfl⟩ := h
                  refine ⟨by decide, ?_, ?_, ?_⟩ <;>
                    simp [List.countP_cons, List.countP_nil, is_successful_create,
                      is_successful_update, is_successful_archive, hok]
                | false =>
                  simp [process_record, hbd, hchk, hdate, hok] at h
                  obtain ⟨rfl, rfl⟩ := h
                  refine ⟨by decide, ?_, ?_, ?_⟩ <;>
                    simp [List.countP_cons, List.countP_nil, is_successful_create,
                      is_successful_update, is_successful_archive, hok]
            | failed =>
              simp [process_record, hbd, hchk] at h
              obtain ⟨rfl, rfl⟩ := h
              refine ⟨by decide, ?_, ?_, ?_⟩ <;>
                simp [List.countP_cons, List.countP_nil, is_successful_create,
                  is_successful_update, is_successful_archive]
            | no =>
              cases hok : env.createOk (nativeIdOf rawId) with
              | true =>
                simp [process_record, hbd, hchk, hok] at h
                obtain ⟨rfl, rfl⟩ := h
                refine ⟨by decide, ?_, ?_, ?_⟩ <;>
                  simp [List.countP_cons, List.countP_nil, is_successful_create,
                    is_successful_update, is_successful_archive, hok]
              | false =>
                simp [process_record, hbd, hchk, hok] at h
                obtain ⟨rfl, rfl⟩ := h
                refine ⟨by decide, ?_, ?_, ?_⟩ <;>
                  simp [List.countP_cons, List.countP_nil, is_successful_create,
                    is_successful_update, is_successful_archive, hok]
  · intro lastH now env fetches c s h
    simp only [main_run] at h
    cases hrl : run_loop lastH env ⟨1, none⟩ Counters.zero fetches with
    | error e => rw [hrl] at h; simp at h
    | ok trip =>
      obtain ⟨s0, c0, ps0⟩ := trip
      rw [hrl] at h
      simp only [Except.ok.injEq, Prod.mk.injEq] at h
      obtain ⟨h1, h2⟩ := h
      rw [← h2, h1]
  · intro lastH now env
    rfl

/-- Witness for C2 at a successful create. -/
theorem C2_counters_witness :
    ((⟨1, 0, 0, 0, 0⟩ : Counters).created + (⟨1, 0, 0, 0, 0⟩ : Counters).updated +
      (⟨1, 0, 0, 0, 0⟩ : Counters).archived + (⟨1, 0, 0, 0, 0⟩ : Counters).skipped_exists +
      (⟨1, 0, 0, 0, 0⟩ : Counters).skipped_deleted ≤ 1)
    ∧ (⟨1, 0, 0, 0, 0⟩ : Counters).created =
      [StoreCall.check "884100", StoreCall.create "<md/>" "884100" dateW].countP
        (is_successful_create envNo)
    ∧ (⟨1, 0, 0, 0, 0⟩ : Counters).updated =
      [StoreCall.check "884100", StoreCall.create "<md/>" "884100" dateW].countP
        (is_successful_update envNo)
    ∧ (⟨1, 0, 0, 0, 0⟩ : Counters).archived =
      [StoreCall.check "884100", StoreCall.create "<md/>" "884100" dateW].countP
        (is_successful_archive envNo) :=
  C2_counters.2.1 envNo recActiveW
    [StoreCall.check "884100", StoreCall.create "<md/>" "884100" dateW]
    ⟨1, 0, 0, 0, 0⟩ rfl
